import Mathlib

/-!
Shallow embedding of the northflank-guides python-with-postgres repository.

The repository has two entry points sharing one table:
  - src/main.py: an HTTP server (PostgresApiServer.do_GET) dispatching on the
    URL path to read / write / delete operations on the table my_table;
  - src/guide.py: a one-shot command-line script doing probe, create table,
    insert, select, print, drop.

The database state is modelled explicitly: the table either exists (with its
rows and the next BIGSERIAL id) or does not.  Timestamps are abstract ticks
(a Nat held in the DB state as the server clock); the textual rendering of a
timestamp by the Python str() call is modelled by an injective rendering
function.  Fallible cursor.execute calls are modelled with Except, carrying
the error text that str(e) would produce.
-/

/-- Record of my_table: id BIGSERIAL PRIMARY KEY, name varchar,
date TIMESTAMP NOT NULL DEFAULT current_timestamp. -/
structure Row where
  id : Nat
  name : String
  date : Nat
deriving Repr, DecidableEq

/-- An existing my_table: its rows in insertion order plus the next value of
the BIGSERIAL id sequence (the sequence is dropped together with the table). -/
structure Table where
  rows : List Row
  nextId : Nat
deriving Repr, DecidableEq

/-- Database state seen through the single connection: the table (none when
dropped or never created) and the server clock used for the date default. -/
structure DB where
  table : Option Table
  now : Nat
deriving Repr, DecidableEq

/-- SQL text of the create-table statement shared by main.py and guide.py. -/
def createTableQuery : String :=
  "CREATE TABLE IF NOT EXISTS my_table( id BIGSERIAL PRIMARY KEY NOT NULL , name varchar, date TIMESTAMP NOT NULL DEFAULT current_timestamp );"

/-- SQL text of the read query of main.py and guide.py. -/
def readDataQuery : String := "SELECT * FROM my_table WHERE name = %s;"

/-- SQL text of the insert query of main.py (writeDataQuery) and guide.py
(addDataQuery). -/
def writeDataQuery : String := "INSERT INTO my_table(name) VALUES(%s);"

/-- SQL text of the drop query of main.py (deleteDataQuery) and guide.py. -/
def deleteDataQuery : String := "DROP TABLE IF EXISTS my_table;"

/-- Error text of psycopg2 UndefinedTable, raised when a statement touches
my_table while it does not exist. -/
def undefinedTableErr : String := "relation \"my_table\" does not exist"

/-- Error text of the TypeError psycopg2 raises when cursor.execute is given
a non-empty parameter tuple for a query containing no %s placeholder. -/
def paramMismatchErr : String := "not all arguments converted during string formatting"

/-- Semantics of executing createTableQuery: idempotent creation; a fresh
table starts empty with its id sequence at 1. -/
def createTableIfNotExists (db : DB) : DB :=
  match db.table with
  | some _ => db
  | none => { db with table := some ({ rows := [], nextId := 1 }) }

/-- Semantics of executing writeDataQuery with parameter (name,): append one
row with the next sequence id and date defaulted to the server clock; raises
UndefinedTable when the table does not exist. -/
def insertRow (db : DB) (name : String) : Except String DB :=
  match db.table with
  | none => Except.error undefinedTableErr
  | some t =>
      let t2 : Table :=
        { rows := t.rows ++ [{ id := t.nextId, name := name, date := db.now }],
          nextId := t.nextId + 1 }
      Except.ok { db with table := some t2 }

/-- Semantics of executing readDataQuery with parameter (name,) and
fetchall: the rows whose name column equals the parameter, in table order;
raises UndefinedTable when the table does not exist. -/
def selectByName (db : DB) (name : String) : Except String (List Row) :=
  match db.table with
  | none => Except.error undefinedTableErr
  | some t => Except.ok (t.rows.filter (fun r => r.name == name))

/-- Semantics of executing deleteDataQuery with no parameters: drop the
table if it exists. -/
def dropTableIfExists (db : DB) : DB := { db with table := none }

/-- Semantics of the cursor.execute call on line 60 of main.py: the query
deleteDataQuery holds no %s placeholder yet the parameter tuple (name,) is
passed, so psycopg2 client-side formatting raises TypeError before anything
reaches the database; the table is never dropped by this call. -/
def execDropWithParams (_db : DB) (_name : String) : Except String DB :=
  Except.error paramMismatchErr

/-- Name extraction of main.py line 38: dict(parse_qsl(url.query)) keeps the
last binding of each key; .get falls back to john when the key is absent.
The input is the list of already-parsed query pairs. -/
def getNameParam (q : List (String × String)) : String :=
  match (q.filter (fun p => p.1 == "name")).getLast? with
  | some p => p.2
  | none => "john"

/-- Abstract rendering of the Python str() call applied to a timestamp by
json.dump via default=str; the model keeps timestamps as abstract ticks, so
the rendering is an injective stand-in for the wall-clock text. -/
def tsToString (t : Nat) : String := "timestamp " ++ toString t

/-- Hexadecimal digit character for the json \uXXXX escapes. -/
def hexDigitChar (n : Nat) : Char :=
  if n < 10 then Char.ofNat (48 + n) else Char.ofNat (97 + (n - 10))

/-- Four-digit lowercase hexadecimal rendering used by json \uXXXX escapes. -/
def hex4 (n : Nat) : String :=
  String.mk [hexDigitChar (n / 4096 % 16), hexDigitChar (n / 256 % 16),
             hexDigitChar (n / 16 % 16), hexDigitChar (n % 16)]

/-- Escaping of one character by Python json.dump with ensure_ascii=True:
short escapes for quote, backslash and the usual control characters, \uXXXX
for other characters outside printable ASCII, surrogate pairs above BMP. -/
def jsonEscapeChar (c : Char) : String :=
  if c = '"' then "\\\""
  else if c = '\\' then "\\\\"
  else if c = '\n' then "\\n"
  else if c = '\r' then "\\r"
  else if c = '\t' then "\\t"
  else if c.toNat = 8 then "\\b"
  else if c.toNat = 12 then "\\f"
  else if 32 ≤ c.toNat ∧ c.toNat ≤ 126 then String.singleton c
  else if c.toNat < 65536 then "\\u" ++ hex4 c.toNat
  else
    "\\u" ++ hex4 (55296 + (c.toNat - 65536) / 1024) ++
    "\\u" ++ hex4 (56320 + (c.toNat - 65536) % 1024)

/-- String escaping of Python json.dump with ensure_ascii=True. -/
def jsonEscape (s : String) : String := String.join (s.data.map jsonEscapeChar)

/-- One fetched row rendered by json.dump(records, indent=4, default=str):
the (id, name, datetime) tuple becomes a nested array at indent level one,
the datetime serialized through str(). -/
def recordJson (r : Row) : String :=
  "    [\n        " ++ toString r.id ++ ",\n        \"" ++ jsonEscape r.name ++
  "\",\n        \"" ++ jsonEscape (tsToString r.date) ++ "\"\n    ]"

/-- Body of the 200 response of the read branch (main.py lines 47 to 49):
json.dump of the fetched records with indent=4, sort_keys=True, default=str. -/
def recordsJson : List Row → String
  | [] => "[]"
  | r :: rs => "[\n" ++ String.intercalate ",\n" ((r :: rs).map recordJson) ++ "\n]"

/-- Body of the 200 response of the write branch (main.py line 57), built by
raw string concatenation around the unescaped name. -/
def writeBody (name : String) : String :=
  "\x7b\"result\": \"Added record with name:" ++ name ++ " to database\"\x7d"

/-- Body of the 200 response of the delete branch (main.py line 64). -/
def deleteBody : String := "\x7b\"result\": \"Deleted all data in the table\"\x7d"

/-- Body of the 404 response (main.py line 69), built by raw string
concatenation around the unescaped url.path. -/
def notFoundBody (path : String) : String :=
  "\x7b\"result\": \"path: " ++ path ++ " is not valid\"\x7d"

/-- Body of the 500 response (main.py lines 74 to 75), built by raw string
concatenation around the unescaped str(e). -/
def errBody (e : String) : String :=
  "\x7b\"result\": \"some error happened while processing the request: " ++ e ++ "\"\x7d"

/-- HTTP response: status line code, Content-type header, body bytes. -/
structure Response where
  status : Nat
  contentType : String
  body : String
deriving Repr, DecidableEq

/-- Body of the try block of PostgresApiServer.do_GET (main.py lines 34 to
69): parse the name parameter, dispatch on url.path, run the matching query
and build the response; an Except.error is an exception escaping to the
handler of line 70.  In every branch the only mutating call either fully
succeeds or raises before mutating, so an error leaves the state unchanged. -/
def doGetInner (db : DB) (path : String) (q : List (String × String)) :
    Except String (Response × DB) :=
  let name := getNameParam q
  if path = "/read" then
    match selectByName db name with
    | Except.error e => Except.error e
    | Except.ok records =>
        Except.ok ({ status := 200, contentType := "application/json",
                     body := recordsJson records }, db)
  else if path = "/write" then
    match insertRow db name with
    | Except.error e => Except.error e
    | Except.ok db2 =>
        Except.ok ({ status := 200, contentType := "application/json",
                     body := writeBody name }, db2)
  else if path = "/delete" then
    match execDropWithParams db name with
    | Except.error e => Except.error e
    | Except.ok db2 =>
        Except.ok ({ status := 200, contentType := "application/json",
                     body := deleteBody }, db2)
  else
    Except.ok ({ status := 404, contentType := "application/json",
                 body := notFoundBody path }, db)

/-- PostgresApiServer.do_GET of main.py: the try block, with any exception
caught on line 70 and answered as a 500 whose body embeds str(e); the
connection state is returned unchanged on that path and the handler keeps
serving. -/
def do_GET (db : DB) (path : String) (q : List (String × String)) :
    Response × DB :=
  match doGetInner db path q with
  | Except.ok r => r
  | Except.error e =>
      ({ status := 500, contentType := "application/json", body := errBody e }, db)

/-- Observable outcome of one run of guide.py: the probe line printed from
fetchone, the records printed by the loop, the database state left behind,
and whether the cursor and connection were closed at the end. -/
structure GuideResult where
  probe : String
  printed : List Row
  finalDb : DB
  closed : Bool
deriving Repr, DecidableEq

/-- Name selection of guide.py line 30: sys.argv first argument, default
john.  The input list holds the arguments after the program name. -/
def guideYourName (argv : List String) : String :=
  match argv with
  | [] => "john"
  | a :: _ => a

/-- guide.py top to bottom: connect, probe (SELECT %s as connected returns
the literal parameter, printed), create table if absent, insert one row named
after the first argument, select and print all rows matching that name, drop
the table, close cursor and connection.  Any raised error terminates the
process, modelled as Except.error. -/
def guideRun (db : DB) (argv : List String) : Except String GuideResult :=
  let probe := "Connection to postgres successful!"
  let db1 := createTableIfNotExists db
  match insertRow db1 (guideYourName argv) with
  | Except.error e => Except.error e
  | Except.ok db2 =>
      match selectByName db2 (guideYourName argv) with
      | Except.error e => Except.error e
      | Except.ok records =>
          Except.ok { probe := probe, printed := records,
                      finalDb := dropTableIfExists db2, closed := true }

/-- Concrete table with one row named john, used at witness inputs. -/
def dbJohnTable : Table :=
  { rows := [{ id := 1, name := "john", date := 0 }], nextId := 2 }

/-- Concrete database state whose table holds one row named john. -/
def dbWithJohn : DB := { table := some dbJohnTable, now := 5 }

/-- Concrete database state whose table has been dropped. -/
def emptyDb : DB := { table := none, now := 7 }

/-- Table state after the insert query appends one row named n, the date
defaulted to the clock value now. -/
def tableAfterInsert (t : Table) (n : String) (now : Nat) : Table :=
  { rows := t.rows ++ [{ id := t.nextId, name := n, date := now }],
    nextId := t.nextId + 1 }

/-- Whitespace skipping of the JSON grammar (RFC 8259): space, tab, newline,
carriage return. -/
def skipWs : List Char → List Char
  | [] => []
  | c :: cs => if c = ' ' ∨ c = '\n' ∨ c = '\t' ∨ c = '\r' then skipWs cs else c :: cs

/-- Hexadecimal digit test for \uXXXX escapes. -/
def isHexDigitCh (c : Char) : Bool :=
  c.isDigit ∨ ('a' ≤ c ∧ c ≤ 'f') ∨ ('A' ≤ c ∧ c ≤ 'F')

/-- Single-character escape codes allowed after a backslash in a JSON string. -/
def isEscapeCode (c : Char) : Bool :=
  c = '"' ∨ c = '\\' ∨ c = '/' ∨ c = 'b' ∨ c = 'f' ∨ c = 'n' ∨ c = 'r' ∨ c = 't'

/-- Parse the remainder of a JSON string after its opening quote, returning
the input past the closing quote, or none when malformed. -/
def parseStringRest : List Char → Option (List Char)
  | [] => none
  | '"' :: cs => some cs
  | '\\' :: 'u' :: h1 :: h2 :: h3 :: h4 :: cs =>
      if isHexDigitCh h1 ∧ isHexDigitCh h2 ∧ isHexDigitCh h3 ∧ isHexDigitCh h4
      then parseStringRest cs else none
  | '\\' :: e :: cs => if isEscapeCode e then parseStringRest cs else none
  | c :: cs => if c.toNat < 32 then none else parseStringRest cs

/-- Drop leading decimal digits. -/
def dropDigits : List Char → List Char
  | [] => []
  | c :: cs => if c.isDigit then dropDigits cs else c :: cs

/-- Require at least one decimal digit, then drop the run. -/
def parseDigits1 : List Char → Option (List Char)
  | [] => none
  | c :: cs => if c.isDigit then some (dropDigits cs) else none

/-- Integer part of a JSON number: a lone zero, or a nonzero digit followed
by digits. -/
def parseIntPart : List Char → Option (List Char)
  | [] => none
  | c :: cs =>
      if c = '0' then some cs
      else if c.isDigit then some (dropDigits cs)
      else none

/-- Optional fraction part of a JSON number. -/
def parseFracPart : List Char → Option (List Char)
  | '.' :: cs => parseDigits1 cs
  | cs => some cs

/-- Optional exponent part of a JSON number. -/
def parseExpPart : List Char → Option (List Char)
  | [] => some []
  | c :: cs =>
      if c = 'e' ∨ c = 'E' then
        match cs with
        | [] => none
        | s :: cs2 => if s = '+' ∨ s = '-' then parseDigits1 cs2 else parseDigits1 cs
      else some (c :: cs)

/-- Parse a JSON number (minus sign already not consumed), returning the
rest of the input. -/
def parseNumber (cs : List Char) : Option (List Char) :=
  let cs1 := match cs with
    | '-' :: r => r
    | r => r
  match parseIntPart cs1 with
  | none => none
  | some r1 =>
      match parseFracPart r1 with
      | none => none
      | some r2 => parseExpPart r2

/-- Expect the given literal characters at the head of the input. -/
def expectChars : List Char → List Char → Option (List Char)
  | [], cs => some cs
  | e :: es, c :: cs => if c = e then expectChars es cs else none
  | _ :: _, [] => none

mutual

/-- Parse one JSON value, fuel-bounded, returning the unread rest. -/
def parseValue : Nat → List Char → Option (List Char)
  | 0, _ => none
  | Nat.succ fuel, cs =>
      match skipWs cs with
      | [] => none
      | c :: rest =>
          if c = '"' then parseStringRest rest
          else if c = '[' then parseArrayRest fuel rest
          else if c = '\x7b' then parseObjectRest fuel rest
          else if c = 't' then expectChars ['r', 'u', 'e'] rest
          else if c = 'f' then expectChars ['a', 'l', 's', 'e'] rest
          else if c = 'n' then expectChars ['u', 'l', 'l'] rest
          else if c = '-' ∨ c.isDigit then parseNumber (c :: rest)
          else none

/-- Parse the inside of a JSON array after the opening bracket. -/
def parseArrayRest : Nat → List Char → Option (List Char)
  | 0, _ => none
  | Nat.succ fuel, cs =>
      match skipWs cs with
      | ']' :: rest => some rest
      | cs2 =>
          match parseValue fuel cs2 with
          | none => none
          | some r2 => parseArrayTail fuel r2

/-- Parse comma-separated further array elements up to the closing bracket. -/
def parseArrayTail : Nat → List Char → Option (List Char)
  | 0, _ => none
  | Nat.succ fuel, cs =>
      match skipWs cs with
      | ']' :: rest => some rest
      | ',' :: rest =>
          match parseValue fuel rest with
          | none => none
          | some r2 => parseArrayTail fuel r2
      | _ => none

/-- Parse the inside of a JSON object after the opening brace. -/
def parseObjectRest : Nat → List Char → Option (List Char)
  | 0, _ => none
  | Nat.succ fuel, cs =>
      match skipWs cs with
      | '\x7d' :: rest => some rest
      | '"' :: rest =>
          match parseStringRest rest with
          | none => none
          | some r1 =>
              match skipWs r1 with
              | ':' :: r2 =>
                  match parseValue fuel r2 with
                  | none => none
                  | some r3 => parseObjectTail fuel r3
              | _ => none
      | _ => none

/-- Parse comma-separated further object members up to the closing brace. -/
def parseObjectTail : Nat → List Char → Option (List Char)
  | 0, _ => none
  | Nat.succ fuel, cs =>
      match skipWs cs with
      | '\x7d' :: rest => some rest
      | ',' :: rest =>
          match skipWs rest with
          | '"' :: r0 =>
              match parseStringRest r0 with
              | none => none
              | some r1 =>
                  match skipWs r1 with
                  | ':' :: r2 =>
                      match parseValue fuel r2 with
                      | none => none
                      | some r3 => parseObjectTail fuel r3
                  | _ => none
          | _ => none
      | _ => none

end

/-- A string is a syntactically valid JSON document when one JSON value
parses and only whitespace remains.  The fuel bounds the recursion depth and
is generous for the input length. -/
def isValidJson (s : String) : Bool :=
  match parseValue (4 * s.length + 16) s.data with
  | none => false
  | some rest => (skipWs rest).isEmpty

/-- Helper: a query list whose single pair binds name to x yields x. -/
theorem getNameParam_single (x : String) : getNameParam [("name", x)] = x := by
  simp [getNameParam]

/-- Helper: creating the table when it already exists changes nothing. -/
theorem createTable_of_some (db : DB) (t : Table) (h : db.table = some t) :
    createTableIfNotExists db = db := by
  unfold createTableIfNotExists
  rw [h]

/-- Helper: the result state of a successful insert. -/
theorem insertRow_of_some (db : DB) (t : Table) (h : db.table = some t)
    (name : String) :
    insertRow db name =
      Except.ok { db with table := some (tableAfterInsert t name db.now) } := by
  unfold insertRow tableAfterInsert
  rw [h]

/-- Helper: the rows of a successful select. -/
theorem selectByName_of_some (db : DB) (t : Table) (h : db.table = some t)
    (name : String) :
    selectByName db name = Except.ok (t.rows.filter (fun r => r.name == name)) := by
  unfold selectByName
  rw [h]

/-- Helper: a successful branch of doGetInner never carries status 500. -/
theorem doGetInner_ok_not_500 (db : DB) (path : String)
    (q : List (String × String)) (r : Response × DB)
    (h : doGetInner db path q = Except.ok r) : r.1.status ≠ 500 := by
  unfold doGetInner at h
  by_cases h1 : path = "/read"
  · rw [h1, if_pos rfl] at h
    cases hs : selectByName db (getNameParam q) with
    | error e => rw [hs] at h; exact Except.noConfusion h
    | ok records =>
        rw [hs] at h
        injection h with h2
        rw [← h2]
        simp
  · rw [if_neg h1] at h
    by_cases h2 : path = "/write"
    · rw [h2, if_pos rfl] at h
      cases hs : insertRow db (getNameParam q) with
      | error e => rw [hs] at h; exact Except.noConfusion h
      | ok db2 =>
          rw [hs] at h
          injection h with h3
          rw [← h3]
          simp
    · rw [if_neg h2] at h
      by_cases h3 : path = "/delete"
      · rw [h3, if_pos rfl] at h
        exact Except.noConfusion h
      · rw [if_neg h3] at h
        injection h with h4
        rw [← h4]
        simp

/-- Helper: guideRun always succeeds, and its outcome is determined by the
table state after the create and insert steps. -/
theorem guideRun_eq (db : DB) (argv : List String) :
    ∃ t1 : Table, (createTableIfNotExists db).table = some t1 ∧
      guideRun db argv = Except.ok
        { probe := "Connection to postgres successful!",
          printed := (tableAfterInsert t1 (guideYourName argv) db.now).rows.filter
            (fun r => r.name == guideYourName argv),
          finalDb := { table := none, now := db.now },
          closed := true } := by
  cases hdb : db.table with
  | none =>
      refine ⟨{ rows := [], nextId := 1 }, ?_, ?_⟩ <;>
        simp [createTableIfNotExists, hdb, guideRun, insertRow, selectByName,
          tableAfterInsert, dropTableIfExists]
  | some t =>
      refine ⟨t, ?_, ?_⟩ <;>
        simp [createTableIfNotExists, hdb, guideRun, insertRow, selectByName,
          tableAfterInsert, dropTableIfExists]

/-- C1: the claim says GET /delete drops the table and answers 200, and the
code clearly intends that (its response text announces the deletion), but the
cursor.execute call passes the parameter tuple (name,) to a query with no
placeholder, so psycopg2 raises TypeError: the handler answers 500 and the
table survives intact. -/
theorem C1_delete_responds_500_keeps_table :
    do_GET dbWithJohn "/delete" [("name", "john")] =
      ({ status := 500, contentType := "application/json",
         body := errBody paramMismatchErr }, dbWithJohn) ∧
    (do_GET dbWithJohn "/delete" [("name", "john")]).2.table = some dbJohnTable := by
  exact ⟨rfl, rfl⟩

/-- C2: writing name x through the handler and then reading x through the
handler yields a 200 whose record list holds at least one row named x,
whenever the table exists. -/
theorem C2_write_then_read_contains_name (db : DB) (t : Table)
    (h : db.table = some t) (x : String) :
    ∃ rows : List Row,
      (do_GET (do_GET db "/write" [("name", x)]).2 "/read" [("name", x)]).1 =
        { status := 200, contentType := "application/json",
          body := recordsJson rows } ∧
      ∃ r, r ∈ rows ∧ r.name = x := by
  have hname := getNameParam_single x
  have hi := insertRow_of_some db t h x
  have hwrite : (do_GET db "/write" [("name", x)]).2 =
      { db with table := some (tableAfterInsert t x db.now) } := by
    simp [do_GET, doGetInner, hname, hi]
  rw [hwrite]
  have hs := selectByName_of_some
    { db with table := some (tableAfterInsert t x db.now) }
    (tableAfterInsert t x db.now) rfl x
  refine ⟨(tableAfterInsert t x db.now).rows.filter (fun r => r.name == x), ?_, ?_⟩
  · simp [do_GET, doGetInner, hname, hs]
  · refine ⟨{ id := t.nextId, name := x, date := db.now }, ?_, rfl⟩
    simp [tableAfterInsert, List.mem_filter]

/-- C2 witness at the concrete state dbWithJohn and name alice. -/
theorem C2_write_then_read_contains_name_witness :
    ∃ rows : List Row,
      (do_GET (do_GET dbWithJohn "/write" [("name", "alice")]).2 "/read"
          [("name", "alice")]).1 =
        { status := 200, contentType := "application/json",
          body := recordsJson rows } ∧
      ∃ r, r ∈ rows ∧ r.name = "alice" :=
  C2_write_then_read_contains_name dbWithJohn dbJohnTable rfl "alice"

/-- C3: a GET of /read answers 200 with the json.dump of exactly the rows
whose name column equals the name parameter, and the parameter falls back to
john when absent from the query. -/
theorem C3_read_selects_matching_rows (db : DB) (t : Table)
    (h : db.table = some t) (q : List (String × String)) :
    do_GET db "/read" q =
      ({ status := 200, contentType := "application/json",
         body := recordsJson (t.rows.filter (fun r => r.name == getNameParam q)) },
       db) ∧
    ((q.filter (fun p => p.1 == "name")).getLast? = none →
      getNameParam q = "john") := by
  constructor
  · have hs := selectByName_of_some db t h (getNameParam q)
    simp [do_GET, doGetInner, hs]
  · intro hq
    unfold getNameParam
    rw [hq]

/-- C3 witness at the concrete state dbWithJohn with no query parameters. -/
theorem C3_read_selects_matching_rows_witness :
    do_GET dbWithJohn "/read" [] =
      ({ status := 200, contentType := "application/json",
         body := recordsJson (dbJohnTable.rows.filter
           (fun r => r.name == getNameParam [])) }, dbWithJohn) ∧
    ((List.filter (fun p => p.1 == "name") ([] : List (String × String))).getLast? =
        none → getNameParam [] = "john") :=
  C3_read_selects_matching_rows dbWithJohn dbJohnTable rfl []

/-- C4: a GET of /write appends exactly one row named after the name
parameter (john when absent) with the next sequence id, and answers 200 with
a body embedding the inserted name. -/
theorem C4_write_inserts_one_row (db : DB) (t : Table)
    (h : db.table = some t) (q : List (String × String)) :
    do_GET db "/write" q =
      ({ status := 200, contentType := "application/json",
         body := writeBody (getNameParam q) },
       { db with table := some (tableAfterInsert t (getNameParam q) db.now) }) ∧
    ∃ a b : String, writeBody (getNameParam q) = a ++ getNameParam q ++ b := by
  constructor
  · have hi := insertRow_of_some db t h (getNameParam q)
    simp [do_GET, doGetInner, hi]
  · exact ⟨"\x7b\"result\": \"Added record with name:", " to database\"\x7d", rfl⟩

/-- C4 witness at the concrete state dbWithJohn and name alice. -/
theorem C4_write_inserts_one_row_witness :
    do_GET dbWithJohn "/write" [("name", "alice")] =
      ({ status := 200, contentType := "application/json",
         body := writeBody (getNameParam [("name", "alice")]) },
       { dbWithJohn with table := some (tableAfterInsert dbJohnTable
           (getNameParam [("name", "alice")]) dbWithJohn.now) }) ∧
    ∃ a b : String, writeBody (getNameParam [("name", "alice")]) =
      a ++ getNameParam [("name", "alice")] ++ b :=
  C4_write_inserts_one_row dbWithJohn dbJohnTable rfl [("name", "alice")]

/-- C5: any path other than /read, /write and /delete is answered 404 with a
body embedding the literal path; at /bogus the body is exactly the string the
spec displays. -/
theorem C5_unknown_path_404 (db : DB) (path : String)
    (q : List (String × String)) (h1 : path ≠ "/read") (h2 : path ≠ "/write")
    (h3 : path ≠ "/delete") :
    do_GET db path q =
      ({ status := 404, contentType := "application/json",
         body := notFoundBody path }, db) ∧
    notFoundBody "/bogus" = "\x7b\"result\": \"path: /bogus is not valid\"\x7d" := by
  constructor
  · simp [do_GET, doGetInner, h1, h2, h3]
  · rfl

/-- C5 witness at the concrete path /bogus. -/
theorem C5_unknown_path_404_witness :
    do_GET dbWithJohn "/bogus" [] =
      ({ status := 404, contentType := "application/json",
         body := notFoundBody "/bogus" }, dbWithJohn) ∧
    notFoundBody "/bogus" = "\x7b\"result\": \"path: /bogus is not valid\"\x7d" :=
  C5_unknown_path_404 dbWithJohn "/bogus" [] (by decide) (by decide) (by decide)

/-- C6: the handler answers 500 exactly when the try block raised, the 500
body embeds the error text, and on that path the database state is returned
untouched and the handler still returns a response (nothing is torn down). -/
theorem C6_exception_handling (db : DB) (path : String)
    (q : List (String × String)) :
    ((do_GET db path q).1.status = 500 ↔
      ∃ e, doGetInner db path q = Except.error e) ∧
    (∀ e, doGetInner db path q = Except.error e →
      do_GET db path q =
        ({ status := 500, contentType := "application/json",
           body := errBody e }, db)) := by
  constructor
  · constructor
    · intro h5
      cases hr : doGetInner db path q with
      | error e => exact ⟨e, rfl⟩
      | ok r =>
          exfalso
          apply doGetInner_ok_not_500 db path q r hr
          simpa [do_GET, hr] using h5
    · rintro ⟨e, he⟩
      simp [do_GET, he]
  · intro e he
    simp [do_GET, he]

/-- C6 witness: at /delete the try block raises the parameter mismatch and
the handler answers the matching 500 with the state untouched. -/
theorem C6_exception_handling_witness :
    do_GET dbWithJohn "/delete" [] =
      ({ status := 500, contentType := "application/json",
         body := errBody paramMismatchErr }, dbWithJohn) :=
  (C6_exception_handling dbWithJohn "/delete" []).2 paramMismatchErr rfl

/-- C7: the date column of a row inserted by /write or by the guide script
is the server clock value, whatever name the client sent: no request input
reaches the stored timestamp. -/
theorem C7_date_server_assigned (db : DB) (t : Table) (h : db.table = some t)
    (q : List (String × String)) :
    ((do_GET db "/write" q).2.table =
        some (tableAfterInsert t (getNameParam q) db.now) ∧
      ((tableAfterInsert t (getNameParam q) db.now).rows.getLast?).map Row.date =
        some db.now) ∧
    (∀ argv : List String, ∃ g, guideRun db argv = Except.ok g ∧
      ∃ r, r ∈ g.printed ∧ r.name = guideYourName argv ∧ r.date = db.now) := by
  constructor
  · constructor
    · have hi := insertRow_of_some db t h (getNameParam q)
      simp [do_GET, doGetInner, hi]
    · simp [tableAfterInsert]
  · intro argv
    obtain ⟨t1, h1, h3⟩ := guideRun_eq db argv
    refine ⟨_, h3, ?_⟩
    refine ⟨{ id := t1.nextId, name := guideYourName argv, date := db.now },
      ?_, rfl, rfl⟩
    simp [tableAfterInsert, List.mem_filter]

/-- C7 witness at the concrete state dbWithJohn and name alice. -/
theorem C7_date_server_assigned_witness :
    ((do_GET dbWithJohn "/write" [("name", "alice")]).2.table =
        some (tableAfterInsert dbJohnTable
          (getNameParam [("name", "alice")]) dbWithJohn.now) ∧
      ((tableAfterInsert dbJohnTable (getNameParam [("name", "alice")])
          dbWithJohn.now).rows.getLast?).map Row.date = some dbWithJohn.now) ∧
    (∀ argv : List String, ∃ g, guideRun dbWithJohn argv = Except.ok g ∧
      ∃ r, r ∈ g.printed ∧ r.name = guideYourName argv ∧
        r.date = dbWithJohn.now) :=
  C7_date_server_assigned dbWithJohn dbJohnTable rfl [("name", "alice")]

/-- C8: one run of the guide script succeeds from any state, prints the
probe text, prints at least one row named after the first argument (and only
such rows) before the drop, leaves the table dropped, and closes up; bob
yields a printed row named bob and the default argument is john. -/
theorem C8_guide_sequence (db : DB) (argv : List String) :
    ∃ g, guideRun db argv = Except.ok g ∧
      g.probe = "Connection to postgres successful!" ∧
      (∃ r, r ∈ g.printed ∧ r.name = guideYourName argv) ∧
      (∀ r, r ∈ g.printed → r.name = guideYourName argv) ∧
      g.finalDb.table = none ∧ g.closed = true ∧
      guideYourName ["bob"] = "bob" ∧ guideYourName [] = "john" := by
  obtain ⟨t1, h1, h3⟩ := guideRun_eq db argv
  refine ⟨_, h3, rfl, ?_, ?_, rfl, rfl, rfl, rfl⟩
  · refine ⟨{ id := t1.nextId, name := guideYourName argv, date := db.now },
      ?_, rfl⟩
    simp [tableAfterInsert, List.mem_filter]
  · intro r hr
    rw [List.mem_filter] at hr
    exact eq_of_beq hr.2

/-- C9: a GET of /read never changes the database state, whether it succeeds
or raises. -/
theorem C9_read_preserves_state (db : DB) (q : List (String × String)) :
    (do_GET db "/read" q).2 = db := by
  cases hs : selectByName db (getNameParam q) with
  | error e => simp [do_GET, doGetInner, hs]
  | ok records => simp [do_GET, doGetInner, hs]

/-- C10: the write confirmation, the 404 echo and the 500 error bodies are
raw concatenations served as application/json, and a double quote in the
name, the path or the error text makes the body malformed JSON, while a
quote-free write body is well formed. -/
theorem C10_raw_bodies_not_json :
    (do_GET dbWithJohn "/write" [("name", "a\"b")]).1.status = 200 ∧
    (do_GET dbWithJohn "/write" [("name", "a\"b")]).1.contentType =
      "application/json" ∧
    (do_GET dbWithJohn "/write" [("name", "a\"b")]).1.body = writeBody "a\"b" ∧
    isValidJson (writeBody "a\"b") = false ∧
    (do_GET dbWithJohn "/bo\"gus" []).1.status = 404 ∧
    (do_GET dbWithJohn "/bo\"gus" []).1.body = notFoundBody "/bo\"gus" ∧
    isValidJson (notFoundBody "/bo\"gus") = false ∧
    (do_GET emptyDb "/read" []).1.status = 500 ∧
    (do_GET emptyDb "/read" []).1.body = errBody undefinedTableErr ∧
    isValidJson (errBody undefinedTableErr) = false ∧
    isValidJson (writeBody "alice") = true := by
  decide
